import Mathlib

/-!
Verification of the portfolio simulation engine in
`src/backtester/backtester.py` (class `Backtest`).

Shallow embedding conventions:
* Python floats are modelled as `ℚ` (the engine only adds, subtracts,
  multiplies, divides and floor-divides).
* A pandas `DataFrame` of inventory/trade rows is modelled as a `List` of
  records; the default `RangeIndex` used by the source (all appends pass
  `ignore_index=True`) is the list position.
* `self.<attr>` instance attributes become fields of the `Backtest`
  structure; methods become state transformers `Backtest → ... → Backtest`.
  The source spells some attributes in two ways (`self.options_inventory`
  at line 205/214/296 vs `self._options_inventory` at line 124/355, and
  `self.stocks_inventory` vs `self._stocks_inventory`); both spellings are
  modelled as the single corresponding field.
* Data the engine receives from its external collaborators (the data
  feeds' per-date snapshots and the strategy's `filter_entries` /
  `filter_exits` / `_exit_candidates` results) are passed as parameters,
  matching the spec's component boundary (§1, §6).
* Python `assert` failures and attribute-lookup failures are modelled with
  `Except RunError` where a claim is about them (`run`'s preamble).
-/

/-- Direction tag of an option order; mirrors `backtester/enums.py`'s
`Order` values as used in trade-log rows. -/
inductive OrderTag where
  | bto
  | sto
  | btc
  | stc
deriving DecidableEq, Repr

/-- Option type column value (`call` / `put`). -/
inductive OptionType where
  | call
  | put
deriving DecidableEq, Repr

/-- One leg of an option position: the per-leg column group
`(contract, underlying, expiration, type, strike, cost, order)` created by
the inventory-column construction in the source (lines 120-122). -/
structure LegRow where
  contract : String
  underlying : String
  expiration : Nat
  otype : OptionType
  strike : ℚ
  cost : ℚ
  order : OrderTag
deriving DecidableEq, Repr

/-- The `totals` column group `(cost, qty, date)` of an option position
(source line 123). Dates are modelled as naturals. -/
structure TotalsRow where
  cost : ℚ
  qty : ℚ
  date : Nat
deriving DecidableEq, Repr

/-- One multi-leg option position / trade-log row: the per-leg groups plus
the `totals` group (source lines 120-124). -/
structure OptionPosition where
  legs : List LegRow
  totals : TotalsRow
deriving DecidableEq, Repr

/-- One stock inventory row, columns `['symbol', 'price', 'qty']`
(source line 126).  `qty` is a float in the source (it is produced by
float floor-division), hence `ℚ` here. -/
structure StockRow where
  symbol : String
  price : ℚ
  qty : ℚ
deriving DecidableEq, Repr

/-- A configured stock target: `Stock(symbol, percentage)` from
`backtester/enums.py` as consumed by the engine. -/
structure StockTarget where
  symbol : String
  percentage : ℚ
deriving DecidableEq, Repr

/-- The options-strategy object as seen by the engine (external
collaborator, spec §6): a schema descriptor and a mutable
`initial_capital` field. Schemas are modelled as opaque numerals. -/
structure StrategyObj where
  initial_capital : ℚ
  schema : Nat
deriving DecidableEq, Repr

/-- A data feed (`TiingoData` / `HistoricalOptionsData`) as seen by the
engine: its schema descriptor and its list of distinct dates. -/
structure DataFeed where
  dates : List Nat
  schema : Nat
deriving DecidableEq, Repr

/-- One row of the balance series, with the fields written by
`_update_balance` (source lines 348-359): `total capital`, `cash`,
`stocks capital`, `stocks qty`, `options capital`, `options qty`,
`calls capital`, `puts capital`, keyed by date. -/
structure BalanceRow where
  date : Nat
  total_capital : ℚ
  cash : ℚ
  stocks_capital : ℚ
  stocks_qty : ℚ
  options_capital : ℚ
  options_qty : ℚ
  calls_capital : ℚ
  puts_capital : ℚ
deriving DecidableEq, Repr

/-- The `Backtest` instance state: the attributes assigned in `__init__`
(lines 12-28), by the property setters (lines 34-69), and by the
simulation methods (`trade_log`, `balance`, inventories, the two cash
pools and the capital attributes).  `trade_log_capital` models the extra
`('totals', 'capital')` column that `summary` writes into the trade-log
DataFrame (line 366-368); it is `none` while the column is absent. -/
structure Backtest where
  allocation_stocks : ℚ
  allocation_options : ℚ
  allocation_cash : ℚ
  current_cash : ℚ
  initial_capital : ℚ
  stop_if_broke : Bool
  shares_per_contract : Nat
  stocks : List StockTarget
  options_strategy : Option StrategyObj
  stocks_data : Option DataFeed
  options_data : Option DataFeed
  options_inventory : List OptionPosition
  stocks_inventory : List StockRow
  trade_log : List OptionPosition
  trade_log_capital : Option (List ℚ)
  balance : List BalanceRow
  current_options_cash : ℚ
  current_stocks_cash : ℚ
  total_capital : ℚ
  stock_capital : ℚ
  options_capital : ℚ
deriving DecidableEq

/-- `Backtest.__init__` (source lines 12-28): normalizes the allocation
mapping over the keys `('stocks', 'options', 'cash')` — each missing key
defaults to `0.0` and each value is divided by the raw total — and sets
`current_cash = initial_capital`, `stop_if_broke = True`.  The input
mapping is modelled as one `Option ℚ` per key.  Fields assigned only
later by the simulation methods start at the empty/zero placeholder. -/
def mkBacktest (alloc_stocks alloc_options alloc_cash : Option ℚ)
    (initial_capital : ℚ) (shares_per_contract : Nat) : Backtest :=
  let total_allocation := alloc_stocks.getD 0 + alloc_options.getD 0 + alloc_cash.getD 0
  { allocation_stocks := alloc_stocks.getD 0 / total_allocation
    allocation_options := alloc_options.getD 0 / total_allocation
    allocation_cash := alloc_cash.getD 0 / total_allocation
    current_cash := initial_capital
    initial_capital := initial_capital
    stop_if_broke := true
    shares_per_contract := shares_per_contract
    stocks := []
    options_strategy := none
    stocks_data := none
    options_data := none
    options_inventory := []
    stocks_inventory := []
    trade_log := []
    trade_log_capital := none
    balance := []
    current_options_cash := 0
    current_stocks_cash := 0
    total_capital := 0
    stock_capital := 0
    options_capital := 0 }

/-- The `stocks_data` property setter (source lines 55-59). -/
def setStocksData (bt : Backtest) (d : DataFeed) : Backtest :=
  { bt with stocks_data := some d }

/-- The `options_data` property setter (source lines 65-69). -/
def setOptionsData (bt : Backtest) (d : DataFeed) : Backtest :=
  { bt with options_data := some d }

/-- The `strategy` property setter (source lines 45-49): stores the
strategy and overwrites `current_cash` with the strategy's
`initial_capital`. -/
def setStrategy (bt : Backtest) (s : StrategyObj) : Backtest :=
  { bt with options_strategy := some s, current_cash := s.initial_capital }

/-- `_process_entry_signals` (source lines 217-224): if the ranked
candidate frame is non-empty, return its first row (as a one-row batch,
matching the `Series` append) and `total_price = totals.cost * totals.qty`
of that row; otherwise return the empty frame and price `0`. -/
def processEntrySignals (entry_signals : List OptionPosition) :
    List OptionPosition × ℚ :=
  match entry_signals with
  | e :: _ => ([e], e.totals.cost * e.totals.qty)
  | [] => ([], 0)

/-- `_execute_entry` (source lines 200-207): fills the processed entry
when `not stop_if_broke or current_options_cash >= total_price`; on a
fill it appends the row to `options_inventory` and `trade_log` and debits
`total_price` from `current_options_cash`; otherwise state is
unchanged. -/
def executeEntry (st : Backtest) (entry_signals : List OptionPosition) : Backtest :=
  if st.stop_if_broke = false ∨ st.current_options_cash ≥ (processEntrySignals entry_signals).2 then
    { st with
      options_inventory := st.options_inventory ++ (processEntrySignals entry_signals).1
      trade_log := st.trade_log ++ (processEntrySignals entry_signals).1
      current_options_cash := st.current_options_cash - (processEntrySignals entry_signals).2 }
  else st

/-- Boolean membership of a natural number in a list of naturals (used to
model pandas index membership in `DataFrame.drop`). -/
def memNat (m : Nat) : List Nat → Bool
  | [] => false
  | a :: t => (m == a) || memNat m t

/-- Pairs each row with its positional index starting at `n` (the
inventories carry the default `RangeIndex`, so index = position). -/
def enumFromIdx (n : Nat) : List α → List (Nat × α)
  | [] => []
  | a :: t => (n, a) :: enumFromIdx (n + 1) t

/-- The index labels selected by a boolean mask starting at position `n`:
models `inventory[exits_mask].index`. -/
def maskedIdxFrom (n : Nat) : List Bool → List Nat
  | [] => []
  | b :: t => if b then n :: maskedIdxFrom (n + 1) t else maskedIdxFrom (n + 1) t

/-- `DataFrame.drop(labels)` on a RangeIndex-ed frame: keep the rows whose
positional index is not among the dropped labels. -/
def dropIdx (inv : List α) (idxs : List Nat) : List α :=
  ((enumFromIdx 0 inv).filter (fun p => !(memNat p.1 idxs))).map Prod.snd

/-- The mask-level description of the same operation: keep exactly the
rows whose mask entry is `false` (rows are paired with the mask
positionally). -/
def dropMasked (inv : List α) (mask : List Bool) : List α :=
  ((inv.zip mask).filter (fun p => !p.2)).map Prod.fst

/-- `_execute_exit` (source lines 209-215): given the strategy's exit
signals `(exits, exits_mask, total_costs)`, append all exit rows to the
trade log, drop the mask-selected rows from the options inventory
(`drop(inventory[exits_mask].index)`), and debit `sum(total_costs)` from
`current_options_cash`.  There is no cash check. -/
def executeExit (st : Backtest) (exits : List OptionPosition) (exits_mask : List Bool)
    (total_costs : List ℚ) : Backtest :=
  { st with
    trade_log := st.trade_log ++ exits
    options_inventory := dropIdx st.options_inventory (maskedIdxFrom 0 exits_mask)
    current_options_cash := st.current_options_cash - total_costs.sum }

/-- The floor-division quantity rule shared by both rebalance bodies
(source lines 159 and 282): `qty = (capital * percentage) // price`,
Python float floor-division, i.e. the floor of the exact quotient. -/
def stockQty (capital percentage price : ℚ) : ℤ :=
  ⌊capital * percentage / price⌋

/-- The stock row issued for one target during the rebalance resize
(source lines 282, 286-288): symbol, the day's price, and the floored
quantity. -/
def issueStock (capital : ℚ) (t : StockTarget) (price : ℚ) : StockRow :=
  { symbol := t.symbol, price := price, qty := ((stockQty capital t.percentage price : ℤ) : ℚ) }

/-- Quantity held for a symbol, looked up in the stocks inventory: the
first matching row's `qty`, `0` when no row matches (source lines
259-263; line 340 performs the same first-row lookup). -/
def inventoryQty (inv : List StockRow) (sym : String) : ℚ :=
  ((inv.find? (fun r => r.symbol == sym)).map StockRow.qty).getD 0

/-- The stock-resize loop of the effective rebalance (source lines
277-288): for each configured target, read the day's price, floor-divide
the target dollars into a quantity, drop the target's existing inventory
rows and append the freshly issued row; also collect each issue's cost
`qty * price` (the `stocks_costs` list). -/
def rebalanceStocksLoop (inv : List StockRow) (price : String → ℚ) (newCap : ℚ) :
    List StockTarget → List StockRow × List ℚ
  | [] => (inv, [])
  | t :: ts =>
    let p := price t.symbol
    let row := issueStock newCap t p
    let inv2 := (inv.filter (fun r => !(r.symbol == t.symbol))) ++ [row]
    let rest := rebalanceStocksLoop inv2 price newCap ts
    (rest.1, row.qty * p :: rest.2)

/-- The capital roll-forward of the effective rebalance (source lines
244-272): `old_options_capital = current_options_cash + (calls_value +
puts_value)` and `old_stock_capital = current_stocks_cash + Σ price·qty`
over the configured targets; `self.total_capital` is reassigned to their
sum only when that sum is nonzero, otherwise the previously tracked value
stands.  `callsValue`/`putsValue` are the marked option-leg values
produced from the strategy's exit-candidate lookup with zero-imputed cost
for missing contracts (external collaborator, passed in). -/
def rebalanceTotalCapital (st1 : Backtest) (callsValue putsValue : ℚ)
    (price : String → ℚ) : ℚ :=
  let old_options_capital := st1.current_options_cash + (callsValue + putsValue)
  let old_stock_capital := st1.current_stocks_cash +
    (st1.stocks.map (fun t => price t.symbol * inventoryQty st1.stocks_inventory t.symbol)).sum
  if old_options_capital + old_stock_capital ≠ 0 then
    old_options_capital + old_stock_capital
  else st1.total_capital

/-- The middle section of the effective rebalance (source lines 268-295):
recompute total capital, split it by the normalized allocation (the
source reads `self.stocks_percentaje` / `self.options_percentaje`,
attributes assigned nowhere in the class; the constructor's normalized
`allocation` values, which they transparently misname, are used here),
resize the stock inventory, set the stock-side cash to the residual, set
the option-side cash to the options allocation (line 294's
`x += new - x`), and persist the options allocation into the strategy's
`initial_capital`. -/
def rebalanceMid (st1 : Backtest) (callsValue putsValue : ℚ) (price : String → ℚ) : Backtest :=
  let tc := rebalanceTotalCapital st1 callsValue putsValue price
  let new_stocks_capital := tc * st1.allocation_stocks
  let new_options_capital := tc * st1.allocation_options
  let pr := rebalanceStocksLoop st1.stocks_inventory price new_stocks_capital st1.stocks
  { st1 with
    stocks_inventory := pr.1
    total_capital := tc
    stock_capital := new_stocks_capital
    current_stocks_cash := new_stocks_capital - pr.2.sum
    current_options_cash := new_options_capital
    options_strategy := st1.options_strategy.map (fun s => { s with initial_capital := new_options_capital }) }

/-- The `_rebalance_portfolio` that is in effect (source lines 226-298 —
the second definition of that name, which under Python semantics shadows
the first one at lines 143-171): execute the day's exit signals, roll the
capital forward, resize stocks and cash pools (`rebalanceMid`), then
request fresh entry candidates from the strategy against the current
(post-exit, NOT reset) options inventory and execute the entry; finally
record `self.options_capital`.  The strategy's `filter_entries` is the
external parameter `fE`. -/
def rebalanceEffective (st : Backtest) (exits : List OptionPosition) (exits_mask : List Bool)
    (total_costs : List ℚ) (callsValue putsValue : ℚ) (price : String → ℚ)
    (fE : List OptionPosition → List OptionPosition) : Backtest :=
  let st1 := executeExit st exits exits_mask total_costs
  let st2 := rebalanceMid st1 callsValue putsValue price
  let st3 := executeEntry st2 (fE st2.options_inventory)
  { st3 with options_capital := rebalanceTotalCapital st1 callsValue putsValue price * st1.allocation_options }

/-- `_update_balance` (source lines 300-360): execute the day's exit
signals, set `self.options_capital = current_options_cash + (calls_value
+ puts_value)`, mark the stock inventory to the day's prices, set
`self.stock_capital = total_value + current_stocks_cash` and
`self.total_capital = stock_capital + options_capital`, and append one
balance row.  In the appended row the source writes the LOCAL variable
`options_capital` (the bare mark value) into `'options capital'` while
`'total capital'` uses the `self.`-attributes; the row's
`'calls capital'`/`'puts capital'` entries read the names `calls_capital`
and `puts_capital`, which are unbound in the source (a `NameError`); per
spec §9 they are taken to be the `calls_value`/`puts_value` computed
earlier in the same step. -/
def updateBalance (st : Backtest) (date : Nat) (exits : List OptionPosition)
    (exits_mask : List Bool) (total_costs : List ℚ) (callsValue putsValue : ℚ)
    (price : String → ℚ) : Backtest :=
  let st1 := executeExit st exits exits_mask total_costs
  let options_capital_local := callsValue + putsValue
  let st2 := { st1 with options_capital := st1.current_options_cash + options_capital_local }
  let total_value :=
    (st2.stocks.map (fun t => price t.symbol * inventoryQty st2.stocks_inventory t.symbol)).sum
  let st3 := { st2 with stock_capital := total_value + st2.current_stocks_cash }
  let st4 := { st3 with total_capital := st3.stock_capital + st3.options_capital }
  let row : BalanceRow :=
    { date := date
      total_capital := st4.stock_capital + st4.options_capital
      cash := st4.current_stocks_cash + st4.current_options_cash
      stocks_capital := st4.stock_capital
      stocks_qty := (st4.stocks_inventory.map StockRow.qty).sum
      options_capital := options_capital_local
      options_qty := (st4.options_inventory.map (fun r => r.totals.qty)).sum
      calls_capital := callsValue
      puts_capital := putsValue }
  { st4 with balance := st4.balance ++ [row] }

/-- Failure modes of `run()`'s preamble: a failed `assert` (with its
message) or a failed attribute lookup (Python `AttributeError`, with the
attribute name). -/
inductive RunError where
  | assertionFailed (msg : String)
  | attrMissing (name : String)
deriving DecidableEq, Repr

/-- The preamble of `run()` (source lines 82-89), i.e. everything that
executes before the first simulation step.  In order: the three
attachment asserts, the schema-equality assert, the read of the option
dates, then the read of `self._stock_data` at line 88.  The class assigns
the attribute `_stocks_data` (setter, line 59) but never `_stock_data`,
so that lookup raises `AttributeError` on every call; the date-equality
assert at line 89 is therefore never reached. -/
def runPreamble (bt : Backtest) : Except RunError Unit :=
  match bt.stocks_data with
  | none => Except.error (RunError.assertionFailed "Stock data not set")
  | some _ =>
    match bt.options_data with
    | none => Except.error (RunError.assertionFailed "Options data not set")
    | some od =>
      match bt.options_strategy with
      | none => Except.error (RunError.assertionFailed "Options Strategy not set")
      | some strat =>
        if od.schema ≠ strat.schema then
          Except.error (RunError.assertionFailed "schema mismatch")
        else
          Except.error (RunError.attrMissing "_stock_data")

/-- Tail of `pct_change` given the previous value: each entry is
`(x_i - x_prev) / x_prev`. -/
def pctTail (prev : ℚ) : List ℚ → List (Option ℚ)
  | [] => []
  | y :: t => some ((y - prev) / prev) :: pctTail y t

/-- `Series.pct_change()` (source line 113): `NaN` (modelled `none`) at
the first record, then the period-over-period fractional change. -/
def pctChange : List ℚ → List (Option ℚ)
  | [] => []
  | x :: t => none :: pctTail x t

/-- Elementwise `1.0 + series` (source line 114); `NaN` propagates. -/
def onePlus (l : List (Option ℚ)) : List (Option ℚ) :=
  l.map (Option.map (fun v => 1 + v))

/-- `Series.cumprod()` with its default `skipna=True` (source line 114):
a `NaN` entry stays `NaN` and is skipped by the running product. -/
def cumprodSkipna (acc : ℚ) : List (Option ℚ) → List (Option ℚ)
  | [] => []
  | none :: t => none :: cumprodSkipna acc t
  | some v :: t => some (acc * v) :: cumprodSkipna (acc * v) t

/-- The `'accumulated return'` column computed at the end of `run()`
(source lines 113-114) from the `'total_capital'` column of the balance
series: `(1.0 + balance['% change']).cumprod()`. -/
def accumulatedReturn (totals : List ℚ) : List (Option ℚ) :=
  cumprodSkipna 1 (onePlus (pctChange totals))

/-- Running cumulative sum (`Series.cumsum()`). -/
def cumsumFrom (acc : ℚ) : List ℚ → List ℚ
  | [] => []
  | x :: t => (acc + x) :: cumsumFrom (acc + x) t

/-- The strategy `initial_capital` read by `summary` at line 368.  The
source spells it `self._strategy.initial_capital`; `_strategy` is an
attribute assigned nowhere in the class (the setter assigns
`_options_strategy`), so this reads the attached strategy. -/
def stratInitialCapital (st : Backtest) : ℚ :=
  (st.options_strategy.map StrategyObj.initial_capital).getD 0

/-- The `('totals', 'capital')` column that `summary` writes into the
trade log (source lines 366-368):
`(-cost * qty).cumsum() + strategy.initial_capital`, elementwise. -/
def capitalColumn (st : Backtest) : List ℚ :=
  (cumsumFrom 0 (st.trade_log.map (fun r => -r.totals.cost * r.totals.qty))).map
    (fun v => v + stratInitialCapital st)

/-- The complete effect of `summary()` on the `Backtest` state: the only
state write in the method is the in-place column assignment
`df.loc[:, ('totals', 'capital')] = ...` at lines 366-368, where `df` is
`self.trade_log` itself; every other statement of `summary` computes
local values or builds the returned styler.  The balance series is only
read (line 365, 370). -/
def summaryEffect (st : Backtest) : Backtest :=
  { st with trade_log_capital := some (capitalColumn st) }

/-- The trade-log DataFrame as a whole: its rows together with the
optional `('totals', 'capital')` column. -/
structure TradeLogView where
  rows : List OptionPosition
  capital : Option (List ℚ)
deriving DecidableEq, Repr

/-- Projects the trade-log DataFrame out of the state. -/
def tradeLogOf (st : Backtest) : TradeLogView :=
  { rows := st.trade_log, capital := st.trade_log_capital }

/-- A sample option leg used by concrete witnesses. -/
def legA : LegRow :=
  { contract := "SPX200101C3000", underlying := "SPX", expiration := 20200101
    otype := OptionType.call, strike := 3000, cost := 7/2, order := OrderTag.bto }

/-- A sample option position (cost 7/2, qty 2). -/
def posA : OptionPosition :=
  { legs := [legA], totals := { cost := 7/2, qty := 2, date := 20200101 } }

/-- A second sample option position (cost 5, qty 1). -/
def posB : OptionPosition :=
  { legs := [legA], totals := { cost := 5, qty := 1, date := 20200102 } }

/-- A sample strategy object. -/
def stratS : StrategyObj := { initial_capital := 500000, schema := 7 }

/-- A sample data feed. -/
def feedS : DataFeed := { dates := [1, 2, 3], schema := 7 }

/-- A sample mid-simulation engine state with two option positions held
and 100 of option-side cash. -/
def sampleSt : Backtest :=
  { allocation_stocks := 1/2
    allocation_options := 1/2
    allocation_cash := 0
    current_cash := 1000000
    initial_capital := 1000000
    stop_if_broke := true
    shares_per_contract := 100
    stocks := []
    options_strategy := some stratS
    stocks_data := some feedS
    options_data := some feedS
    options_inventory := [posA, posB]
    stocks_inventory := []
    trade_log := []
    trade_log_capital := none
    balance := []
    current_options_cash := 100
    current_stocks_cash := 0
    total_capital := 500
    stock_capital := 0
    options_capital := 0 }

/-- A fully configured backtest built through the constructor and the
three setters, with matching schemas and identical date sets. -/
def goodBt : Backtest :=
  setStrategy (setOptionsData (setStocksData
    (mkBacktest (some (1/2)) (some (1/2)) none 1000000 100) feedS) feedS) stratS

/-- The state used by the rebalance counterexample: one held option
position, no stock targets. -/
def cexSt : Backtest := { sampleSt with options_inventory := [posA] }

/-- The state used by the balance-row evaluation: positive option-side
cash and no positions at all. -/
def c4St : Backtest := { sampleSt with options_inventory := [] }

/-- The balance row that `_update_balance` appends from `c4St` on a day
with no exits and all marks zero. -/
def c4Row : BalanceRow :=
  { date := 0, total_capital := 100, cash := 100, stocks_capital := 0, stocks_qty := 0
    options_capital := 0, options_qty := 0, calls_capital := 0, puts_capital := 0 }

/-- The state used by the summary counterexample: one trade-log row, no
capital column yet. -/
def c8St : Backtest := { sampleSt with trade_log := [posA] }

lemma maskedIdxFrom_true (n : Nat) (t : List Bool) :
    maskedIdxFrom n (true :: t) = n :: maskedIdxFrom (n + 1) t := rfl

lemma maskedIdxFrom_false (n : Nat) (t : List Bool) :
    maskedIdxFrom n (false :: t) = maskedIdxFrom (n + 1) t := rfl

lemma enumFromIdx_cons (n : Nat) (a : α) (t : List α) :
    enumFromIdx n (a :: t) = (n, a) :: enumFromIdx (n + 1) t := rfl

lemma memNat_cons (m a : Nat) (l : List Nat) :
    memNat m (a :: l) = ((m == a) || memNat m l) := rfl

lemma memNat_maskedIdxFrom : ∀ (mask : List Bool) (n m : Nat), m < n →
    memNat m (maskedIdxFrom n mask) = false := by
  intro mask
  induction mask with
  | nil => intro n m _; rfl
  | cons b t ih =>
    intro n m h
    cases b with
    | false =>
      rw [maskedIdxFrom_false]
      exact ih (n + 1) m (by omega)
    | true =>
      rw [maskedIdxFrom_true, memNat_cons]
      have h1 : (m == n) = false := by
        simp only [beq_eq_false_iff_ne]
        omega
      rw [h1, Bool.false_or]
      exact ih (n + 1) m (by omega)

lemma enumFromIdx_fst_le : ∀ (l : List α) (n : Nat) (p : Nat × α),
    p ∈ enumFromIdx n l → n ≤ p.1 := by
  intro l
  induction l with
  | nil => intro n p hp; simp [enumFromIdx] at hp
  | cons a t ih =>
    intro n p hp
    rw [enumFromIdx_cons] at hp
    rcases List.mem_cons.mp hp with h | h
    · subst h; exact Nat.le_refl n
    · exact Nat.le_of_succ_le (ih (n + 1) p h)

lemma dropMasked_cons_true (a : α) (t : List α) (mt : List Bool) :
    dropMasked (a :: t) (true :: mt) = dropMasked t mt := by
  simp [dropMasked, List.zip_cons_cons, List.filter_cons]

lemma dropMasked_cons_false (a : α) (t : List α) (mt : List Bool) :
    dropMasked (a :: t) (false :: mt) = a :: dropMasked t mt := by
  simp [dropMasked, List.zip_cons_cons, List.filter_cons]

lemma dropIdx_from_eq : ∀ (inv : List α) (mask : List Bool) (n : Nat),
    inv.length ≤ mask.length →
    ((enumFromIdx n inv).filter (fun p => !(memNat p.1 (maskedIdxFrom n mask)))).map Prod.snd
      = dropMasked inv mask := by
  intro inv
  induction inv with
  | nil => intro mask n _; rfl
  | cons a t ih =>
    intro mask n h
    cases mask with
    | nil => exact absurd h (by simp)
    | cons b mt =>
      have hlen : t.length ≤ mt.length := by simpa using h
      cases b with
      | true =>
        rw [maskedIdxFrom_true, enumFromIdx_cons, List.filter_cons]
        have hhead : (!(memNat n (n :: maskedIdxFrom (n + 1) mt))) = false := by
          rw [memNat_cons]
          simp
        rw [hhead]
        have hcongr : (enumFromIdx (n + 1) t).filter
              (fun p => !(memNat p.1 (n :: maskedIdxFrom (n + 1) mt)))
            = (enumFromIdx (n + 1) t).filter
              (fun p => !(memNat p.1 (maskedIdxFrom (n + 1) mt))) := by
          apply List.filter_congr
          intro p hp
          have hge : n + 1 ≤ p.1 := enumFromIdx_fst_le t (n + 1) p hp
          have hne : (p.1 == n) = false := by
            simp only [beq_eq_false_iff_ne]
            omega
          rw [memNat_cons, hne, Bool.false_or]
        simp only [Bool.false_eq_true, if_false, hcongr]
        rw [ih mt (n + 1) hlen, dropMasked_cons_true]
      | false =>
        rw [maskedIdxFrom_false, enumFromIdx_cons, List.filter_cons]
        have hm : memNat n (maskedIdxFrom (n + 1) mt) = false :=
          memNat_maskedIdxFrom mt (n + 1) n (Nat.lt_succ_self n)
        have hhead : (!(memNat n (maskedIdxFrom (n + 1) mt))) = true := by
          rw [hm]; rfl
        rw [hhead]
        simp only [if_true, List.map_cons]
        rw [ih mt (n + 1) hlen, dropMasked_cons_false]

lemma executeExit_inventory (st : Backtest) (exits : List OptionPosition) (mask : List Bool)
    (costs : List ℚ) (h : mask.length = st.options_inventory.length) :
    (executeExit st exits mask costs).options_inventory = dropMasked st.options_inventory mask := by
  show dropIdx st.options_inventory (maskedIdxFrom 0 mask) = dropMasked st.options_inventory mask
  unfold dropIdx
  exact dropIdx_from_eq st.options_inventory mask 0 (le_of_eq h.symm)

lemma executeEntry_inventory_cases (st : Backtest) (sig : List OptionPosition) :
    (executeEntry st sig).options_inventory = st.options_inventory ++ (processEntrySignals sig).1 ∨
    (executeEntry st sig).options_inventory = st.options_inventory := by
  unfold executeEntry
  split
  · exact Or.inl rfl
  · exact Or.inr rfl

lemma rebalanceMid_options_inventory (st1 : Backtest) (cv pv : ℚ) (price : String → ℚ) :
    (rebalanceMid st1 cv pv price).options_inventory = st1.options_inventory := rfl

lemma rebalanceEffective_options_inventory (st : Backtest) (exits : List OptionPosition)
    (mask : List Bool) (costs : List ℚ) (cv pv : ℚ) (price : String → ℚ)
    (fE : List OptionPosition → List OptionPosition) :
    (rebalanceEffective st exits mask costs cv pv price fE).options_inventory =
      (executeEntry (rebalanceMid (executeExit st exits mask costs) cv pv price)
        (fE (rebalanceMid (executeExit st exits mask costs) cv pv price).options_inventory)).options_inventory := rfl

lemma cumsumFrom_length (a : ℚ) (l : List ℚ) : (cumsumFrom a l).length = l.length := by
  induction l generalizing a with
  | nil => rfl
  | cons x t ih => simp [cumsumFrom, ih]

lemma cumprod_pctTail : ∀ (xs : List ℚ) (prev acc : ℚ), prev ≠ 0 → (∀ y ∈ xs, y ≠ 0) →
    cumprodSkipna acc (onePlus (pctTail prev xs)) = xs.map (fun y => some (acc * y / prev)) := by
  intro xs
  induction xs with
  | nil => intro prev acc _ _; rfl
  | cons y t ih =>
    intro prev acc hprev hall
    have hy : y ≠ 0 := hall y (List.mem_cons_self y t)
    have ht : ∀ z ∈ t, z ≠ 0 := fun z hz => hall z (List.mem_cons_of_mem y hz)
    show some (acc * (1 + (y - prev) / prev)) ::
        cumprodSkipna (acc * (1 + (y - prev) / prev)) (onePlus (pctTail y t))
      = some (acc * y / prev) :: t.map (fun z => some (acc * z / prev))
    have hhead : acc * (1 + (y - prev) / prev) = acc * y / prev := by
      field_simp
    rw [hhead]
    congr 1
    rw [ih y (acc * y / prev) hy ht]
    apply List.map_congr_left
    intro z _
    congr 1
    field_simp
    ring

/-- Claim C1: each call to entry execution considers exactly the first
(highest-ranked) candidate, with `total_price = totals.cost * totals.qty`;
with `stop_if_broke` enabled the candidate fills if and only if
`total_price ≤ current_options_cash`, with it disabled it always fills;
on a fill the row is appended to the options inventory and the trade log
and `total_price` is debited from the option-side cash pool; on rejection
the whole state is unchanged.  The result does not depend on the
remaining candidates `rest`. -/
theorem entry_admission (st : Backtest) (e : OptionPosition) (rest : List OptionPosition) :
    executeEntry st (e :: rest) =
      if st.stop_if_broke = false ∨ e.totals.cost * e.totals.qty ≤ st.current_options_cash then
        { st with
          options_inventory := st.options_inventory ++ [e]
          trade_log := st.trade_log ++ [e]
          current_options_cash := st.current_options_cash - e.totals.cost * e.totals.qty }
      else st := by
  by_cases hc : st.stop_if_broke = false ∨ e.totals.cost * e.totals.qty ≤ st.current_options_cash
  · rw [if_pos hc]
    unfold executeEntry
    rw [if_pos (show st.stop_if_broke = false ∨
        st.current_options_cash ≥ (processEntrySignals (e :: rest)).2 from hc)]
    rfl
  · rw [if_neg hc]
    unfold executeEntry
    rw [if_neg (show ¬(st.stop_if_broke = false ∨
        st.current_options_cash ≥ (processEntrySignals (e :: rest)).2) from hc)]

/-- Claim C2: exit execution appends every exit row to the trade log (one
trade-log entry per exit row), removes exactly the mask-selected rows
from the options inventory, changes the option-side cash pool by exactly
the negative of the summed cost vector, and is unconditional — it holds
for every state, in particular for arbitrarily low cash, and leaves the
stock inventory and stock-side cash untouched. -/
theorem exit_exact_effect (st : Backtest) (exits : List OptionPosition) (mask : List Bool)
    (costs : List ℚ) (h : mask.length = st.options_inventory.length) :
    (executeExit st exits mask costs).trade_log = st.trade_log ++ exits ∧
    (executeExit st exits mask costs).trade_log.length = st.trade_log.length + exits.length ∧
    (executeExit st exits mask costs).options_inventory = dropMasked st.options_inventory mask ∧
    (executeExit st exits mask costs).current_options_cash = st.current_options_cash - costs.sum ∧
    (executeExit st exits mask costs).stocks_inventory = st.stocks_inventory ∧
    (executeExit st exits mask costs).current_stocks_cash = st.current_stocks_cash :=
  ⟨rfl, List.length_append st.trade_log exits,
    executeExit_inventory st exits mask costs h, rfl, rfl, rfl⟩

/-- Witness for `exit_exact_effect` at a concrete state: two positions
held, mask `[true, false]`, one exit row, costs `[3, 4]`. -/
theorem exit_exact_effect_witness :
    ([true, false] : List Bool).length = sampleSt.options_inventory.length ∧
    ((executeExit sampleSt [posB] [true, false] [3, 4]).trade_log = sampleSt.trade_log ++ [posB] ∧
     (executeExit sampleSt [posB] [true, false] [3, 4]).trade_log.length =
        sampleSt.trade_log.length + [posB].length ∧
     (executeExit sampleSt [posB] [true, false] [3, 4]).options_inventory =
        dropMasked sampleSt.options_inventory [true, false] ∧
     (executeExit sampleSt [posB] [true, false] [3, 4]).current_options_cash =
        sampleSt.current_options_cash - ([3, 4] : List ℚ).sum ∧
     (executeExit sampleSt [posB] [true, false] [3, 4]).stocks_inventory = sampleSt.stocks_inventory ∧
     (executeExit sampleSt [posB] [true, false] [3, 4]).current_stocks_cash =
        sampleSt.current_stocks_cash) :=
  ⟨by decide, exit_exact_effect sampleSt [posB] [true, false] [3, 4] (by decide)⟩

/-- Claim C3 counterexample: the rebalance that is in effect performs no
full inventory reset.  Concretely, with one held option position, exit
signals that mask nothing and a strategy that returns no entry
candidates, the options inventory after the rebalance still contains the
old position — under the claim it would have been cleared to empty and
left empty. -/
theorem rebalance_keeps_unmasked_row :
    (rebalanceEffective cexSt [] [false] [] 0 0 (fun _ => 5) (fun _ => [])).options_inventory
      = [posA] ∧
    [posA] ≠ ([] : List OptionPosition) := by
  constructor
  · norm_num [rebalanceEffective, executeExit, dropIdx, maskedIdxFrom, enumFromIdx, memNat,
      rebalanceMid, rebalanceTotalCapital, rebalanceStocksLoop, executeEntry, processEntrySignals,
      cexSt, sampleSt, inventoryQty, stratS, feedS]
  · simp

/-- Claim C3 (amended): the effective rebalance (source lines 226-298,
the later of the two same-named method bodies, hence the one in effect)
does not clear the inventories.  Every option row not selected by the
day's exit mask survives the rebalance: the post-rebalance options
inventory begins with exactly the exit-filtered old inventory, and the
strategy's entry candidates are requested against that possibly
non-empty inventory rather than an empty one. -/
theorem rebalance_no_reset (st : Backtest) (exits : List OptionPosition) (mask : List Bool)
    (costs : List ℚ) (cv pv : ℚ) (price : String → ℚ)
    (fE : List OptionPosition → List OptionPosition)
    (h : mask.length = st.options_inventory.length) :
    ((rebalanceEffective st exits mask costs cv pv price fE).options_inventory).take
        (dropMasked st.options_inventory mask).length = dropMasked st.options_inventory mask := by
  rw [rebalanceEffective_options_inventory]
  have hmid : (rebalanceMid (executeExit st exits mask costs) cv pv price).options_inventory
      = dropMasked st.options_inventory mask := by
    rw [rebalanceMid_options_inventory]
    exact executeExit_inventory st exits mask costs h
  rcases executeEntry_inventory_cases (rebalanceMid (executeExit st exits mask costs) cv pv price)
      (fE (rebalanceMid (executeExit st exits mask costs) cv pv price).options_inventory) with
    hcase | hcase
  · rw [hcase, hmid, List.take_left]
  · rw [hcase, hmid, List.take_length]

/-- Witness for `rebalance_no_reset` at the concrete counterexample
state. -/
theorem rebalance_no_reset_witness :
    ([false] : List Bool).length = cexSt.options_inventory.length ∧
    ((rebalanceEffective cexSt [] [false] [] 0 0 (fun _ => 5) (fun _ => [])).options_inventory).take
        (dropMasked cexSt.options_inventory [false]).length = dropMasked cexSt.options_inventory [false] :=
  ⟨by decide, rebalance_no_reset cexSt [] [false] [] 0 0 (fun _ => 5) (fun _ => []) (by decide)⟩

/-- Claim C4 evaluated at a failing input: with 100 of option-side cash
and nothing else, the balance row appended by `_update_balance` records
`total capital = 100` but `stocks capital = 0` and `options capital = 0`,
so the recorded total does not equal the recorded stock capital plus the
recorded option capital: the row's `'options capital'` entry is the bare
mark value (the local variable) and omits the option-side cash that the
`'total capital'` entry includes. -/
theorem balance_row_inconsistent :
    (updateBalance c4St 0 [] [] [] 0 0 (fun _ => 0)).balance = [c4Row] ∧
    c4Row.total_capital ≠ c4Row.stocks_capital + c4Row.options_capital := by
  constructor
  · norm_num [updateBalance, executeExit, dropIdx, maskedIdxFrom, enumFromIdx, memNat,
      inventoryQty, c4St, sampleSt, c4Row, stratS, feedS]
  · norm_num [c4Row]

/-- Claim C5 counterexample: pandas `pct_change` yields NaN at the first
record and `(1 + NaN) = NaN`, so the accumulated-return series starts
with NaN (`none`) — not with 1.0 as the claim states.  For total capital
`[100, 110]` the computed series is `[NaN, 11/10]`. -/
theorem accumulated_return_first_record_nan :
    accumulatedReturn [100, 110] = [none, some (11/10)] ∧
    (accumulatedReturn [100, 110]).head? ≠ some (some (1 : ℚ)) := by
  have h : accumulatedReturn [100, 110] = [none, some (11/10)] := by
    norm_num [accumulatedReturn, pctChange, pctTail, onePlus, cumprodSkipna]
  refine ⟨h, ?_⟩
  rw [h]
  simp

/-- Claim C5 (amended): the `% change` column is NaN at the first record
and the period-over-period fractional change afterwards; the accumulated
return is NaN (not 1.0) at the first record and at every later record
equals the running product of the available `(1 + % change)` factors,
which telescopes to that record's total capital divided by the first
record's total capital — regardless of the number of rebalances. -/
theorem accumulated_return_characterized (x0 : ℚ) (xs : List ℚ) (h0 : x0 ≠ 0)
    (h : ∀ y ∈ xs, y ≠ 0) :
    accumulatedReturn (x0 :: xs) = none :: xs.map (fun y => some (y / x0)) := by
  show none :: cumprodSkipna 1 (onePlus (pctTail x0 xs)) = _
  rw [cumprod_pctTail xs x0 1 h0 h]
  congr 1
  apply List.map_congr_left
  intro y _
  rw [one_mul]

/-- Witness for `accumulated_return_characterized` on the concrete series
`[100, 110]`. -/
theorem accumulated_return_characterized_witness :
    ((100 : ℚ) ≠ 0 ∧ ∀ y ∈ ([110] : List ℚ), y ≠ 0) ∧
    accumulatedReturn ((100 : ℚ) :: [110]) = none :: ([110] : List ℚ).map (fun y => some (y / 100)) :=
  ⟨⟨by norm_num, by decide⟩, accumulated_return_characterized 100 [110] (by norm_num) (by decide)⟩

/-- Claim C6 evaluated: `goodBt` satisfies every claimed precondition
(stock data, option data and strategy attached, equal schemas, identical
date lists), yet `run()`'s preamble fails with `AttributeError` on
`_stock_data` — an attribute the class never assigns (the setter assigns
`_stocks_data`) — before the date-set assertion and before any simulation
step; a missing feed does fail its assert, and no configuration makes the
preamble succeed. -/
theorem run_preamble_always_fails :
    (goodBt.stocks_data = some feedS ∧ goodBt.options_data = some feedS ∧
     goodBt.options_strategy = some stratS ∧ feedS.schema = stratS.schema ∧
     goodBt.stocks_data.map DataFeed.dates = goodBt.options_data.map DataFeed.dates) ∧
    runPreamble goodBt = Except.error (RunError.attrMissing "_stock_data") ∧
    runPreamble (mkBacktest (some (1/2)) (some (1/2)) none 1000000 100) =
      Except.error (RunError.assertionFailed "Stock data not set") ∧
    (∀ bt : Backtest, runPreamble bt ≠ Except.ok ()) := by
  refine ⟨⟨rfl, rfl, rfl, rfl, rfl⟩, rfl, rfl, ?_⟩
  intro bt
  cases hsd : bt.stocks_data with
  | none => simp [runPreamble, hsd]
  | some sd =>
    cases hod : bt.options_data with
    | none => simp [runPreamble, hsd, hod]
    | some od =>
      cases hos : bt.options_strategy with
      | none => simp [runPreamble, hsd, hod, hos]
      | some strat =>
        simp only [runPreamble, hsd, hod, hos]
        split <;> simp

/-- Claim C7: for every configured stock target and every resize with a
positive current price, the issued quantity is the floor of the allocated
dollars over the price, and therefore the deployed value never exceeds
the allocation `capital * percentage`. -/
theorem stock_resize_floor (capital : ℚ) (t : StockTarget) (price : ℚ) (hp : 0 < price) :
    (issueStock capital t price).qty = ((⌊capital * t.percentage / price⌋ : ℤ) : ℚ) ∧
    (issueStock capital t price).qty * price ≤ capital * t.percentage := by
  refine ⟨rfl, ?_⟩
  show ((stockQty capital t.percentage price : ℤ) : ℚ) * price ≤ capital * t.percentage
  have h1 : ((stockQty capital t.percentage price : ℤ) : ℚ) ≤ capital * t.percentage / price :=
    Int.floor_le _
  have h2 := mul_le_mul_of_nonneg_right h1 (le_of_lt hp)
  rwa [div_mul_cancel₀ _ (ne_of_gt hp)] at h2

/-- A sample stock target used by the resize witness. -/
def tAAPL : StockTarget := { symbol := "AAPL", percentage := 1/2 }

/-- Witness for `stock_resize_floor` at capital 1000, percentage 1/2,
price 3: quantity 166, deployed value 498 ≤ 500. -/
theorem stock_resize_floor_witness :
    (0 : ℚ) < 3 ∧
    ((issueStock 1000 tAAPL 3).qty = ((⌊(1000 : ℚ) * tAAPL.percentage / 3⌋ : ℤ) : ℚ) ∧
     (issueStock 1000 tAAPL 3).qty * 3 ≤ (1000 : ℚ) * tAAPL.percentage) :=
  ⟨by norm_num, stock_resize_floor 1000 tAAPL 3 (by norm_num)⟩

/-- Claim C8 counterexample: `summary()` does not leave the trade log
unchanged — its first statement writes the `('totals', 'capital')` column
into the trade-log DataFrame in place.  With one logged trade of cost 7/2
and qty 2 and strategy capital 500000, the trade log gains the column
`[499993]`. -/
theorem summary_mutates_trade_log :
    tradeLogOf (summaryEffect c8St) ≠ tradeLogOf c8St ∧
    (summaryEffect c8St).trade_log_capital = some [499993] ∧
    c8St.trade_log_capital = none := by
  refine ⟨?_, ?_, rfl⟩
  · norm_num [tradeLogOf, summaryEffect, capitalColumn, cumsumFrom, stratInitialCapital,
      c8St, sampleSt, posA, stratS]
    simp
  · norm_num [summaryEffect, capitalColumn, cumsumFrom, stratInitialCapital,
      c8St, sampleSt, posA, stratS]

/-- Claim C8 (amended): `summary()` leaves the balance series and the
trade-log rows unchanged, but it writes the cumulative-capital column
`('totals', 'capital')` — the running sum of `-cost * qty` shifted by the
strategy's initial capital, one value per trade-log row — into the trade
log in place, so the trade log as a whole is mutated. -/
theorem summary_effect_characterized (st : Backtest) :
    (summaryEffect st).balance = st.balance ∧
    (summaryEffect st).trade_log = st.trade_log ∧
    (summaryEffect st).trade_log_capital = some (capitalColumn st) ∧
    (capitalColumn st).length = st.trade_log.length := by
  refine ⟨rfl, rfl, rfl, ?_⟩
  unfold capitalColumn
  rw [List.length_map, cumsumFrom_length, List.length_map]

/-- Claim C9: construction normalizes each of the three asset-class
weights (missing keys defaulting to 0) by their raw total, and when that
total is positive the three stored values sum to 1. -/
theorem allocation_normalized (s o c : Option ℚ) (ic : ℚ) (spc : Nat)
    (h : 0 < s.getD 0 + o.getD 0 + c.getD 0) :
    (mkBacktest s o c ic spc).allocation_stocks
        = s.getD 0 / (s.getD 0 + o.getD 0 + c.getD 0) ∧
    (mkBacktest s o c ic spc).allocation_options
        = o.getD 0 / (s.getD 0 + o.getD 0 + c.getD 0) ∧
    (mkBacktest s o c ic spc).allocation_cash
        = c.getD 0 / (s.getD 0 + o.getD 0 + c.getD 0) ∧
    (mkBacktest s o c ic spc).allocation_stocks + (mkBacktest s o c ic spc).allocation_options +
        (mkBacktest s o c ic spc).allocation_cash = 1 := by
  refine ⟨rfl, rfl, rfl, ?_⟩
  show s.getD 0 / (s.getD 0 + o.getD 0 + c.getD 0) + o.getD 0 / (s.getD 0 + o.getD 0 + c.getD 0)
      + c.getD 0 / (s.getD 0 + o.getD 0 + c.getD 0) = 1
  rw [div_add_div_same, div_add_div_same, div_self (ne_of_gt h)]

/-- Witness for `allocation_normalized` with weights stocks 2, options 1,
cash missing. -/
theorem allocation_normalized_witness :
    (0 : ℚ) < (some (2 : ℚ)).getD 0 + (some (1 : ℚ)).getD 0 + (none : Option ℚ).getD 0 ∧
    ((mkBacktest (some 2) (some 1) none 1000000 100).allocation_stocks
        = (some (2 : ℚ)).getD 0 / ((some (2 : ℚ)).getD 0 + (some (1 : ℚ)).getD 0 + (none : Option ℚ).getD 0) ∧
     (mkBacktest (some 2) (some 1) none 1000000 100).allocation_options
        = (some (1 : ℚ)).getD 0 / ((some (2 : ℚ)).getD 0 + (some (1 : ℚ)).getD 0 + (none : Option ℚ).getD 0) ∧
     (mkBacktest (some 2) (some 1) none 1000000 100).allocation_cash
        = (none : Option ℚ).getD 0 / ((some (2 : ℚ)).getD 0 + (some (1 : ℚ)).getD 0 + (none : Option ℚ).getD 0) ∧
     (mkBacktest (some 2) (some 1) none 1000000 100).allocation_stocks
        + (mkBacktest (some 2) (some 1) none 1000000 100).allocation_options
        + (mkBacktest (some 2) (some 1) none 1000000 100).allocation_cash = 1) :=
  ⟨by norm_num, allocation_normalized (some 2) (some 1) none 1000000 100 (by norm_num)⟩

/-- Claim C10: assigning a strategy overwrites the backtest's
`current_cash` with the strategy's `initial_capital` — discarding the
capital the backtest was constructed with — while the backtest's own
`initial_capital` field is left unchanged. -/
theorem strategy_setter_overwrites_cash (bt : Backtest) (s : StrategyObj) :
    (setStrategy bt s).current_cash = s.initial_capital ∧
    (setStrategy bt s).initial_capital = bt.initial_capital ∧
    (setStrategy bt s).options_strategy = some s :=
  ⟨rfl, rfl, rfl⟩
